import Mathlib

/-!
# Facial-Recognition Integrated System — verification of the attendance
  timing state machine and the face-matching pipeline

Shallow embedding of the attendance logic in `src/database.py`
(`mark_attendance`, `auto_mark_attendance`, `update_partial_attendance`,
`cancel_lecture`, `end_lecture_early`, `get_custom_end_time`) and of the
recognition pipeline in `src/vit_face_recognition.py` (`LivenessDetector`,
`recognize_faces`, `mark_attendance_for_recognized_students`).

Modelling conventions:
* Clock times are integers counting seconds since midnight (the code stores
  "HH:MM:SS" strings for check-in times and "HH:MM" strings for course
  times, and compares them as `datetime.time` values; threshold arithmetic
  via `datetime.combine ± timedelta(minutes=k)` becomes `t ± 60*k`).
* Student ids, course reference numbers and dates are natural numbers
  (the code uses strings / ints; only equality of these keys matters).
* The SQLite `attendance` table (UNIQUE(student_id, course_id, date)) is a
  list of records; `fetchone` on the key is `List.find?`, `UPDATE ... WHERE
  key` maps over all records matching the key, `INSERT` appends.
* Face embeddings are lists of rationals; the code L2-normalizes both the
  gallery and the query, so cosine similarity is the plain dot product.
-/

namespace Faris

/-- config.py: EARLY_ARRIVAL_MARGIN = 5 (minutes). -/
def EARLY_ARRIVAL_MARGIN : ℤ := 5

/-- config.py: LATE_THRESHOLD = 15 (minutes). -/
def LATE_THRESHOLD : ℤ := 15

/-- config.py: EARLY_DEPARTURE_THRESHOLD = 15 (minutes). -/
def EARLY_DEPARTURE_THRESHOLD : ℤ := 15

/-- config.py: SECOND_CHECKIN_WINDOW = 5 (minutes). -/
def SECOND_CHECKIN_WINDOW : ℤ := 5

/-- Attendance status strings from config.py (a closed enum in the code:
Present, Absent, Late, N/A, Partial Attendance, Unauthorized Departure). -/
inductive Status where
  | present
  | absent
  | late
  | na
  | partAttendance
  | unauthorizedDeparture
  deriving DecidableEq, Repr

/-- One row of the `attendance` table: student_id, course_id, date, time
(first check-in, nullable), second_time (nullable), status, is_cancelled. -/
structure AttRecord where
  student : ℕ
  course : ℕ
  date : ℕ
  time : Option ℤ
  second_time : Option ℤ
  status : Status
  is_cancelled : Bool
  deriving DecidableEq, Repr

/-- One row of the `courses` table (the fields the attendance logic reads:
reference_number, start_time, end_time). -/
structure Course where
  refNum : ℕ
  start_time : ℤ
  end_time : ℤ
  deriving DecidableEq, Repr

/-- One row of `lecture_custom_times`: (course_id, date, custom_end_time). -/
structure CustomTime where
  course : ℕ
  date : ℕ
  endTime : ℤ
  deriving DecidableEq, Repr

/-- The slice of the SQLite database the attendance logic touches:
attendance rows, course rows, per-date custom end times, and the
`enrollments` table as (course_id, student_id) pairs. -/
structure DB where
  attendance : List AttRecord
  courses : List Course
  customTimes : List CustomTime
  enrollments : List (ℕ × ℕ)
  deriving DecidableEq, Repr

/-- Key match for `WHERE student_id = ? AND course_id = ? AND date = ?`. -/
def attKey (s c d : ℕ) (r : AttRecord) : Bool :=
  r.student = s ∧ r.course = c ∧ r.date = d

/-- `SELECT time, second_time, is_cancelled FROM attendance WHERE
student_id = ? AND course_id = ? AND date = ?` + `fetchone`. -/
def findAtt (db : DB) (s c d : ℕ) : Option AttRecord :=
  db.attendance.find? (attKey s c d)

/-- database.py `get_course_by_id` (the lookup by reference number). -/
def get_course_by_id (db : DB) (c : ℕ) : Option Course :=
  db.courses.find? (fun course => course.refNum = c)

/-- database.py `get_custom_end_time`: the custom end time for
(course_id, date) if one exists. -/
def get_custom_end_time (db : DB) (c d : ℕ) : Option ℤ :=
  (db.customTimes.find? (fun t => t.course = c ∧ t.date = d)).map CustomTime.endTime

/-- database.py `is_student_enrolled_in_course`: COUNT(*) > 0 over
`enrollments WHERE student_id = ? AND course_id = ?`. -/
def is_student_enrolled_in_course (db : DB) (s c : ℕ) : Bool :=
  db.enrollments.any (fun e => e.1 = c ∧ e.2 = s)

/-- database.py `get_enrolled_students` (projected to the student ids):
students joined through `enrollments WHERE course_id = ?`. -/
def get_enrolled_students (db : DB) (c : ℕ) : List ℕ :=
  (db.enrollments.filter (fun e => e.1 = c)).map Prod.snd

/-- The effective course end used by the timing code: the custom end time
for the date when one exists, else the scheduled end time. -/
def effectiveEnd (db : DB) (course : Course) (d : ℕ) : ℤ :=
  match get_custom_end_time db course.refNum d with
  | some t => t
  | none => course.end_time

/-- database.py `mark_attendance(student_id, course_id, date, time, status)`
(the manual path). If a row exists for the key: cancelled ⇒ False; else if
second_time is null ⇒ `UPDATE attendance SET second_time = ?, status = ?`
and True; else False. If no row exists ⇒ INSERT (time, status) and True. -/
def mark_attendance (db : DB) (s c d : ℕ) (time : ℤ) (status : Status) :
    Bool × DB :=
  match findAtt db s c d with
  | some r =>
    if r.is_cancelled then
      (false, db)
    else if r.second_time = none then
      (true, { db with attendance := db.attendance.map (fun r0 =>
          if attKey s c d r0 then
            { r0 with second_time := some time, status := status }
          else r0) })
    else
      (false, db)
  | none =>
    (true, { db with attendance := db.attendance ++
        [{ student := s, course := c, date := d, time := some time,
           second_time := none, status := status, is_cancelled := false }] })

/-- database.py `auto_mark_attendance(student_id, course_id)`; `today` and
`now` stand for `datetime.now()`'s date and time-of-day. First check-in is
accepted on `early_arrival ≤ now ≤ (end − 10 minutes)` (the 10 is
hard-coded in this function), with status Late iff now > start +
LATE_THRESHOLD; a second check-in is accepted iff second_time is null and
now lies in `[end − SECOND_CHECKIN_WINDOW, end + SECOND_CHECKIN_WINDOW]`
and sets only second_time. -/
def auto_mark_attendance (db : DB) (s c : ℕ) (today : ℕ) (now : ℤ) :
    Bool × DB :=
  match get_course_by_id db c with
  | none => (false, db)
  | some course =>
    let course_end := effectiveEnd db course today
    let early_arrival := course.start_time - 60 * EARLY_ARRIVAL_MARGIN
    let late_threshold := course.start_time + 60 * LATE_THRESHOLD
    match findAtt db s c today with
    | some r =>
      if r.is_cancelled then
        (false, db)
      else
        let second_checkin_start := course_end - 60 * SECOND_CHECKIN_WINDOW
        let second_checkin_end := course_end + 60 * SECOND_CHECKIN_WINDOW
        if r.second_time = none ∧ second_checkin_start ≤ now ∧
            now ≤ second_checkin_end then
          (true, { db with attendance := db.attendance.map (fun r0 =>
              if attKey s c today r0 then { r0 with second_time := some now }
              else r0) })
        else
          (false, db)
    | none =>
      let early_departure := course_end - 60 * 10
      if early_arrival ≤ now ∧ now ≤ early_departure then
        let status := if late_threshold < now then Status.late
                      else Status.present
        (true, { db with attendance := db.attendance ++
            [{ student := s, course := c, date := today, time := some now,
               second_time := none, status := status,
               is_cancelled := false }] })
      else
        (false, db)

/-- database.py `update_partial_attendance`: `UPDATE attendance SET status =
'Unauthorized Departure' WHERE date = today AND time IS NOT NULL AND
second_time IS NULL AND status = 'Present' AND is_cancelled = 0`. -/
def updatePartialAttendance (db : DB) (today : ℕ) : DB :=
  { db with attendance := db.attendance.map (fun r =>
      if r.date = today ∧ r.time ≠ none ∧ r.second_time = none ∧
          r.status = Status.present ∧ r.is_cancelled = false then
        { r with status := Status.unauthorizedDeparture }
      else r) }

/-- database.py `cancel_lecture(course_id, date)`: no-op success if some
row for (course, date) already has is_cancelled = 1; else if any rows
exist for (course, date), `UPDATE` them all to (N/A, is_cancelled = 1);
else INSERT an (N/A, is_cancelled = 1) row for every enrolled student. -/
def cancel_lecture (db : DB) (c d : ℕ) : Bool × DB :=
  if db.attendance.any (fun r => r.course = c ∧ r.date = d ∧ r.is_cancelled)
  then
    (true, db)
  else if 0 < (db.attendance.filter (fun r =>
      r.course = c ∧ r.date = d)).length then
    (true, { db with attendance := db.attendance.map (fun r =>
        if r.course = c ∧ r.date = d then
          { r with status := Status.na, is_cancelled := true }
        else r) })
  else
    (true, { db with attendance := db.attendance ++
        (get_enrolled_students db c).map (fun s =>
          { student := s, course := c, date := d, time := none,
            second_time := none, status := Status.na,
            is_cancelled := true }) })

/-! ## Recognition pipeline (src/vit_face_recognition.py) -/

/-- config.py: FACE_RECOGNITION_TOLERANCE = 0.98. -/
def FACE_RECOGNITION_TOLERANCE : ℚ := 49 / 50

/-- LivenessDetector.history_size = 5. -/
def history_size : ℕ := 5

/-- LivenessDetector.required_blinks = 1. -/
def required_blinks : ℕ := 1

/-- LivenessDetector.required_movements = 1. -/
def required_movements : ℕ := 1

/-- LivenessDetector.texture_threshold = 0.15. -/
def texture_threshold : ℚ := 3 / 20

/-- The mutable fields of a LivenessDetector that the per-frame logic
reads and writes. Eye-aspect ratios and face positions are abstracted to
rationals (the position stands for the bounding box, and the Euclidean
norm of a difference of boxes becomes the absolute difference). -/
structure LivenessState where
  blink_count : ℕ
  head_movement_count : ℕ
  last_face_position : Option ℚ
  blink_history : List ℚ
  movement_history : List ℚ
  deriving DecidableEq, Repr

/-- LivenessDetector.__init__ / the state after LivenessDetector.reset():
both counters 0, no last position, empty histories. -/
def resetLiveness : LivenessState :=
  { blink_count := 0, head_movement_count := 0, last_face_position := none,
    blink_history := [], movement_history := [] }

/-- `history.append(x)` followed by `if len > history_size: pop(0)`. -/
def pushHistory (h : List ℚ) (x : ℚ) : List ℚ :=
  let h1 := h ++ [x]
  if history_size < h1.length then h1.tail else h1

/-- LivenessDetector.detect_blink, with the eye-aspect ratio of the
landmarks precomputed as `ear`: push `ear` on the rolling history; with a
full history, count a blink when `ear < 0.7 × average`. -/
def detect_blink (st : LivenessState) (ear : ℚ) : Bool × LivenessState :=
  let hist := pushHistory st.blink_history ear
  let st1 := { st with blink_history := hist }
  if hist.length < history_size then
    (false, st1)
  else
    let avg := hist.sum / hist.length
    if ear < avg * (7 / 10) then
      (true, { st1 with blink_count := st1.blink_count + 1 })
    else
      (false, st1)

/-- LivenessDetector.detect_head_movement: on the first observation just
record the position; afterwards push `|pos − last|` on the rolling history
and, with a full history, count a movement when it exceeds 1.2 × average. -/
def detect_head_movement (st : LivenessState) (pos : ℚ) : Bool × LivenessState :=
  match st.last_face_position with
  | none => (false, { st with last_face_position := some pos })
  | some last =>
    let movement := |pos - last|
    let hist := pushHistory st.movement_history movement
    let st1 := { st with movement_history := hist,
                         last_face_position := some pos }
    if hist.length < history_size then
      (false, st1)
    else
      let avg := hist.sum / hist.length
      if avg * (6 / 5) < movement then
        (true, { st1 with head_movement_count := st1.head_movement_count + 1 })
      else
        (false, st1)

/-- LivenessDetector.analyze_texture, with the face image abstracted to the
mean and standard deviation of its magnitude spectrum: passes when both
exceed texture_threshold. -/
def analyze_texture (meanMag stdMag : ℚ) : Bool :=
  decide (texture_threshold < meanMag ∧ texture_threshold < stdMag)

/-- LivenessDetector.check_liveness: run detect_blink when landmarks are
given, detect_head_movement when a face position is given, then accept iff
`(blink_count ≥ required_blinks or head_movement_count ≥
required_movements) and texture_check`. -/
def check_liveness (st : LivenessState) (meanMag stdMag : ℚ)
    (landmarks : Option ℚ) (face_position : Option ℚ) :
    Bool × LivenessState :=
  let st1 := match landmarks with
             | some ear => (detect_blink st ear).2
             | none => st
  let st2 := match face_position with
             | some pos => (detect_head_movement st1 pos).2
             | none => st1
  let texture_check := analyze_texture meanMag stdMag
  (decide (required_blinks ≤ st2.blink_count ∨
           required_movements ≤ st2.head_movement_count) && texture_check,
   st2)

/-- Dot product of two embeddings; both sides are L2-normalized in the
code, so this is the cosine similarity of recognize_faces. -/
def dot (a b : List ℚ) : ℚ :=
  (List.zipWith (fun x y => x * y) a b).sum

/-- The per-gallery-entry distances of recognize_faces:
`distance = 1 − similarity`, in gallery order. -/
def distancesTo (q : List ℚ) (gallery : List (List ℚ)) : List ℚ :=
  gallery.map (fun g => 1 - dot q g)

/-- np.argmin: the index of the first occurrence of the minimum (numpy
documents that ties resolve to the first occurrence); 0 on []. A head that
is ≤ the minimum of the tail wins, which keeps the earliest index. -/
def argmin : List ℚ → ℕ
  | [] => 0
  | d :: ds =>
    if ds.length = 0 then 0
    else if d ≤ ds.getD (argmin ds) 0 then 0
    else argmin ds + 1

/-- Outcome of matching one query embedding against the gallery. -/
inductive FaceOutcome where
  | recognized (studentId : ℕ) (dist : ℚ)
  | unknown
  deriving DecidableEq, Repr

/-- The matching core of recognize_faces (lines 319–359 for one face):
compute all distances, take `best_match_index = argmin`, accept iff the
minimum distance is ≤ the tolerance, reporting
`known_face_ids[best_match_index]`; otherwise "Unknown". -/
def matchFace (q : List ℚ) (gallery : List (List ℚ)) (ids : List ℕ)
    (tol : ℚ) : FaceOutcome :=
  let ds := distancesTo q gallery
  if ds.length = 0 then
    FaceOutcome.unknown
  else
    let best := argmin ds
    let minD := ds.getD best 0
    if minD ≤ tol then FaceOutcome.recognized (ids.getD best 0) minD
    else FaceOutcome.unknown

/-- A detected face region of a frame: `loc` stands for the reported
location tuple, `pos` for the bounding box fed to the liveness detector,
`embedding` for the normalized ViT embedding of the crop. -/
structure Face where
  loc : ℕ
  pos : ℚ
  embedding : List ℚ
  deriving DecidableEq, Repr

/-- A camera frame: its detected faces, and the magnitude-spectrum stats
of the frame image (check_liveness is called on the whole frame). -/
structure Frame where
  texMean : ℚ
  texStd : ℚ
  faces : List Face
  deriving DecidableEq, Repr

/-- The `{'recognized': [...], 'unrecognized': [...]}` result dictionary:
recognized as (location, student_id, distance), unrecognized as
(location, message). -/
structure RecogOutput where
  recognized : List (ℕ × ℕ × ℚ)
  unrecognized : List (ℕ × String)
  deriving DecidableEq, Repr

/-- One iteration of the face loop of recognize_faces (the
reference_number = None path): liveness first — on failure the face goes
to unrecognized with "Liveness check failed" and is not matched — then
identity matching. -/
def recog_step (gallery : List (List ℚ)) (ids : List ℕ) (tol : ℚ)
    (meanMag stdMag : ℚ) (st : LivenessState) (f : Face) :
    (Sum (ℕ × ℕ × ℚ) (ℕ × String)) × LivenessState :=
  let res := check_liveness st meanMag stdMag none (some f.pos)
  if res.1 = false then
    (Sum.inr (f.loc, "Liveness check failed"), res.2)
  else
    match matchFace f.embedding gallery ids tol with
    | FaceOutcome.recognized sid d => (Sum.inl (f.loc, sid, d), res.2)
    | FaceOutcome.unknown => (Sum.inr (f.loc, "Unknown"), res.2)

/-- The face loop of recognize_faces, accumulating the two result lists in
face order while threading the (session-wide) liveness state. -/
def recogLoop (gallery : List (List ℚ)) (ids : List ℕ) (tol : ℚ)
    (meanMag stdMag : ℚ) (st : LivenessState) :
    List Face → RecogOutput × LivenessState
  | [] => (⟨[], []⟩, st)
  | f :: fs =>
    let step := recog_step gallery ids tol meanMag stdMag st f
    let rest := recogLoop gallery ids tol meanMag stdMag step.2 fs
    match step.1 with
    | Sum.inl rec0 =>
      ({ rest.1 with recognized := rec0 :: rest.1.recognized }, rest.2)
    | Sum.inr unrec =>
      ({ rest.1 with unrecognized := unrec :: rest.1.unrecognized }, rest.2)

/-- recognize_faces: with an empty gallery (`if not
self.known_face_encodings`) return empty result lists at once; likewise
with no detected faces; otherwise run the face loop. -/
def recognize_faces (st : LivenessState) (gallery : List (List ℚ))
    (ids : List ℕ) (frame : Frame) (tol : ℚ) : RecogOutput × LivenessState :=
  if gallery.length = 0 then
    (⟨[], []⟩, st)
  else if frame.faces.length = 0 then
    (⟨[], []⟩, st)
  else
    recogLoop gallery ids tol frame.texMean frame.texStd st frame.faces

/-- The status strings written into per-student messages. -/
def statusStr : Status → String
  | Status.present => "Present"
  | Status.absent => "Absent"
  | Status.late => "Late"
  | Status.na => "N/A"
  | Status.partAttendance => "Partial Attendance"
  | Status.unauthorizedDeparture => "Unauthorized Departure"

/-- The per-student body of mark_attendance_for_recognized_students
(lines 465–563), with the thresholds precomputed by the caller: enrollment
check, cancellation check, the second-check-in window, then the
first-check-in branch, which rejects "Too early" when `now <
early_arrival` and "Class ended" when `now > course_end` (the computed
early-departure threshold is not consulted there). -/
def vitStep (db : DB) (ref today : ℕ) (now : ℤ)
    (late_threshold early_arrival course_end
     second_checkin_start second_checkin_end : ℤ) (student : ℕ) :
    (Bool × String) × DB :=
  if is_student_enrolled_in_course db student ref = false then
    ((false, "Not enrolled in this course"), db)
  else
    match findAtt db student ref today with
    | some r =>
      if r.is_cancelled then
        ((false, "Class cancelled"), db)
      else if r.second_time = none ∧ second_checkin_start ≤ now ∧
          now ≤ second_checkin_end then
        ((true, "Second check-in recorded"),
         { db with attendance := db.attendance.map (fun r0 =>
             if attKey student ref today r0 then
               { r0 with second_time := some now }
             else r0) })
      else
        ((false, "Already checked in"), db)
    | none =>
      if now < early_arrival then
        ((false, "Too early"), db)
      else if course_end < now then
        ((false, "Class ended"), db)
      else
        let status := if now ≤ late_threshold then Status.present
                      else Status.late
        ((true, "Marked as " ++ statusStr status),
         { db with attendance := db.attendance ++
             [{ student := student, course := ref, date := today,
                time := some now, second_time := none, status := status,
                is_cancelled := false }] })

/-- mark_attendance_for_recognized_students: look up the course (empty
result list when missing), resolve the effective end time, precompute the
thresholds — including the unused `early_departure = end −
EARLY_DEPARTURE_THRESHOLD` — then run vitStep over the recognized
students. -/
def mark_attendance_for_recognized (db : DB) (ref today : ℕ) (now : ℤ)
    (students : List ℕ) : List (ℕ × Bool × String) × DB :=
  match get_course_by_id db ref with
  | none => ([], db)
  | some course =>
    let course_end := effectiveEnd db course today
    let early_arrival := course.start_time - 60 * EARLY_ARRIVAL_MARGIN
    let late_threshold := course.start_time + 60 * LATE_THRESHOLD
    let _early_departure := course_end - 60 * EARLY_DEPARTURE_THRESHOLD
    let second_checkin_start := course_end - 60 * SECOND_CHECKIN_WINDOW
    let second_checkin_end := course_end + 60 * SECOND_CHECKIN_WINDOW
    students.foldl (fun acc s =>
      let step := vitStep acc.2 ref today now late_threshold early_arrival
        course_end second_checkin_start second_checkin_end s
      (acc.1 ++ [(s, step.1)], step.2)) ([], db)

/-! ## Concrete instances used by counterexamples and witnesses -/

/-- A course with reference number 20, scheduled 08:00–10:00
(28800 s – 36000 s). -/
def course8to10 : Course :=
  { refNum := 20, start_time := 28800, end_time := 36000 }

/-- Course 20, student 7 enrolled, no attendance rows, no custom times. -/
def dbFresh : DB :=
  { attendance := [], courses := [course8to10], customTimes := [],
    enrollments := [(20, 7)] }

/-- A Present row for student 7 in course 20 on date 3 with a first
check-in at 08:10 and no second check-in. -/
def rowFirstOnly : AttRecord :=
  { student := 7, course := 20, date := 3, time := some 29400,
    second_time := none, status := Status.present, is_cancelled := false }

/-- Database holding only rowFirstOnly. -/
def dbFirstOnly : DB :=
  { attendance := [rowFirstOnly], courses := [course8to10], customTimes := [],
    enrollments := [(20, 7)] }

/-- A cancelled N/A row for student 7 in course 20 on date 3. -/
def rowCancelled : AttRecord :=
  { student := 7, course := 20, date := 3, time := none,
    second_time := none, status := Status.na, is_cancelled := true }

/-- Database holding only rowCancelled. -/
def dbCancelled : DB :=
  { attendance := [rowCancelled], courses := [course8to10], customTimes := [],
    enrollments := [(20, 7)] }

/-- Students 7 and 9 enrolled in course 20, but only student 7 has an
attendance row for date 3. -/
def dbTwoEnrolled : DB :=
  { attendance := [rowFirstOnly], courses := [course8to10], customTimes := [],
    enrollments := [(20, 7), (20, 9)] }

/-- A face region used by the recognition examples: location tag 11,
position 5, embedding [1]. -/
def faceA : Face := { loc := 11, pos := 5, embedding := [1] }

/-- A frame with a single detected face and texture stats 1. -/
def frameOneFace : Frame := { texMean := 1, texStd := 1, faces := [faceA] }

/-- A liveness state that has already counted one blink. -/
def stWarm : LivenessState := { resetLiveness with blink_count := 1 }

/-! ## Theorems -/

/-- C6: once is_cancelled is set on the record for (student, course,
date), every write attempt through mark_attendance or
auto_mark_attendance returns False and leaves the database unchanged. -/
theorem cancelled_is_terminal (db : DB) (s c d : ℕ) (t now : ℤ)
    (status : Status) (r : AttRecord)
    (hfind : findAtt db s c d = some r) (hcan : r.is_cancelled = true) :
    mark_attendance db s c d t status = (false, db) ∧
    auto_mark_attendance db s c d now = (false, db) := by
  constructor
  · unfold mark_attendance
    rw [hfind]
    simp [hcan]
  · unfold auto_mark_attendance
    cases hcourse : get_course_by_id db c with
    | none => rfl
    | some course =>
      rw [hfind]
      simp [hcan]

/-- Witness for C6 at a concrete cancelled record. -/
theorem cancelled_is_terminal_witness :
    mark_attendance dbCancelled 7 20 3 30000 Status.present =
      (false, dbCancelled) ∧
    auto_mark_attendance dbCancelled 7 20 3 30000 = (false, dbCancelled) :=
  cancelled_is_terminal dbCancelled 7 20 3 30000 30000 Status.present
    rowCancelled (by decide) (by decide)

/-- C5 counterexample: the reconciliation batch only touches rows whose
date equals the current date. A non-cancelled Present row dated 3 with a
first check-in and no second check-in is left Present by a batch run on
date 6, although the claim says every such record is rewritten. -/
theorem reconciliation_skips_other_dates :
    rowFirstOnly.time ≠ none ∧ rowFirstOnly.second_time = none ∧
    rowFirstOnly.status = Status.present ∧
    rowFirstOnly.is_cancelled = false ∧
    (updatePartialAttendance dbFirstOnly 6).attendance = [rowFirstOnly] := by
  decide

/-- C5 (amended): a reconciliation run on date `today` rewrites to
Unauthorized Departure exactly the rows of that date that have a first
check-in, no second check-in, status Present and are not cancelled; every
other row — in particular every Late row — is left completely unchanged,
and no row is added or removed. -/
theorem updatePartialAttendance_rules (db : DB) (today : ℕ) :
    List.Forall₂ (fun r0 r1 =>
      r1.student = r0.student ∧ r1.course = r0.course ∧ r1.date = r0.date ∧
      r1.time = r0.time ∧ r1.second_time = r0.second_time ∧
      r1.is_cancelled = r0.is_cancelled ∧
      r1.status = (if r0.date = today ∧ r0.time ≠ none ∧
                      r0.second_time = none ∧ r0.status = Status.present ∧
                      r0.is_cancelled = false
                   then Status.unauthorizedDeparture else r0.status))
      db.attendance (updatePartialAttendance db today).attendance := by
  unfold updatePartialAttendance
  simp only []
  rw [List.forall₂_map_right_iff]
  refine List.forall₂_same.2 (fun r _ => ?_)
  by_cases h : r.date = today ∧ r.time ≠ none ∧ r.second_time = none ∧
      r.status = Status.present ∧ r.is_cancelled = false
  · simp [h]
  · simp [h]

/-- C2: a first check-in attempt (no existing record) is rejected with no
record created when now < start − EARLY_ARRIVAL_MARGIN; inside the valid
window a record is created with first_time = now and status Present when
now ≤ start + LATE_THRESHOLD, Late otherwise. -/
theorem auto_first_checkin_rules (db : DB) (s c today : ℕ) (now : ℤ)
    (course : Course)
    (hc : get_course_by_id db c = some course)
    (hno : findAtt db s c today = none) :
    (now < course.start_time - 60 * EARLY_ARRIVAL_MARGIN →
      auto_mark_attendance db s c today now = (false, db)) ∧
    (course.start_time - 60 * EARLY_ARRIVAL_MARGIN ≤ now →
     now ≤ effectiveEnd db course today - 60 * 10 →
      auto_mark_attendance db s c today now =
        (true, { db with attendance := db.attendance ++
            [{ student := s, course := c, date := today, time := some now,
               second_time := none,
               status := if now ≤ course.start_time + 60 * LATE_THRESHOLD
                         then Status.present else Status.late,
               is_cancelled := false }] })) := by
  unfold auto_mark_attendance
  rw [hc, hno]
  simp only []
  constructor
  · intro h
    rw [if_neg]
    intro hcon
    omega
  · intro h1 h2
    rw [if_pos ⟨h1, h2⟩]
    have hst : (if course.start_time + 60 * LATE_THRESHOLD < now
                then Status.late else Status.present) =
        (if now ≤ course.start_time + 60 * LATE_THRESHOLD
         then Status.present else Status.late) := by
      rcases le_or_lt now (course.start_time + 60 * LATE_THRESHOLD) with h | h
      · rw [if_neg (not_lt.2 h), if_pos h]
      · rw [if_pos h, if_neg (not_le.2 h)]
    rw [hst]

/-- Witness for C2: the §8 boundary instance on the 08:00–10:00 course —
07:54 is rejected, 07:56 yields Present, 08:16 yields Late. -/
theorem auto_first_checkin_rules_witness :
    auto_mark_attendance dbFresh 7 20 3 28440 = (false, dbFresh) ∧
    auto_mark_attendance dbFresh 7 20 3 28560 =
      (true, { dbFresh with attendance :=
          [{ student := 7, course := 20, date := 3, time := some 28560,
             second_time := none, status := Status.present,
             is_cancelled := false }] }) ∧
    auto_mark_attendance dbFresh 7 20 3 29760 =
      (true, { dbFresh with attendance :=
          [{ student := 7, course := 20, date := 3, time := some 29760,
             second_time := none, status := Status.late,
             is_cancelled := false }] }) := by
  refine ⟨(auto_first_checkin_rules dbFresh 7 20 3 28440 course8to10
      (by decide) (by decide)).1 (by decide), ?_, ?_⟩
  · rw [(auto_first_checkin_rules dbFresh 7 20 3 28560 course8to10
      (by decide) (by decide)).2 (by decide) (by decide)]
    decide
  · rw [(auto_first_checkin_rules dbFresh 7 20 3 29760 course8to10
      (by decide) (by decide)).2 (by decide) (by decide)]
    decide

/-- Unfolding of mark_attendance_for_recognized on a single recognized
student, with the thresholds it precomputes. -/
lemma mark_recognized_singleton (db : DB) (ref today : ℕ) (now : ℤ) (s : ℕ)
    (course : Course) (hc : get_course_by_id db ref = some course) :
    mark_attendance_for_recognized db ref today now [s] =
      ([(s, (vitStep db ref today now
          (course.start_time + 60 * LATE_THRESHOLD)
          (course.start_time - 60 * EARLY_ARRIVAL_MARGIN)
          (effectiveEnd db course today)
          (effectiveEnd db course today - 60 * SECOND_CHECKIN_WINDOW)
          (effectiveEnd db course today + 60 * SECOND_CHECKIN_WINDOW) s).1)],
       (vitStep db ref today now
          (course.start_time + 60 * LATE_THRESHOLD)
          (course.start_time - 60 * EARLY_ARRIVAL_MARGIN)
          (effectiveEnd db course today)
          (effectiveEnd db course today - 60 * SECOND_CHECKIN_WINDOW)
          (effectiveEnd db course today + 60 * SECOND_CHECKIN_WINDOW) s).2) := by
  unfold mark_attendance_for_recognized
  rw [hc]
  simp [List.foldl]

/-- The first-check-in branch of vitStep for an enrolled student with no
existing record: "Too early" below the early-arrival bound, "Class ended"
above the course end, an insert otherwise. -/
lemma vitStep_first_checkin (db : DB) (ref today : ℕ) (now : ℤ)
    (lt ea ce ss se : ℤ) (s : ℕ)
    (hen : is_student_enrolled_in_course db s ref = true)
    (hno : findAtt db s ref today = none) :
    vitStep db ref today now lt ea ce ss se s =
      if now < ea then ((false, "Too early"), db)
      else if ce < now then ((false, "Class ended"), db)
      else ((true, "Marked as " ++
              statusStr (if now ≤ lt then Status.present else Status.late)),
            { db with attendance := db.attendance ++
                [{ student := s, course := ref, date := today,
                   time := some now, second_time := none,
                   status := if now ≤ lt then Status.present else Status.late,
                   is_cancelled := false }] }) := by
  unfold vitStep
  rw [hen, hno]
  simp

/-- The existing-record branch of vitStep for an enrolled student whose
record is not cancelled: the second-check-in window rule. -/
lemma vitStep_second_checkin (db : DB) (ref today : ℕ) (now : ℤ)
    (lt ea ce ss se : ℤ) (s : ℕ) (r : AttRecord)
    (hen : is_student_enrolled_in_course db s ref = true)
    (hfind : findAtt db s ref today = some r)
    (hnc : r.is_cancelled = false) :
    vitStep db ref today now lt ea ce ss se s =
      if r.second_time = none ∧ ss ≤ now ∧ now ≤ se then
        ((true, "Second check-in recorded"),
         { db with attendance := db.attendance.map (fun r0 =>
             if attKey s ref today r0 then { r0 with second_time := some now }
             else r0) })
      else ((false, "Already checked in"), db) := by
  unfold vitStep
  rw [hen, hfind]
  simp [hnc]

/-- C1 counterexample: with the 08:00–10:00 course and no prior record,
a check-in at 09:50 lies after end − EARLY_DEPARTURE_THRESHOLD (09:45),
so the claim demands rejection, yet both auto_mark_attendance and the
recognition path accept it (the auto path uses a hard-coded 10-minute
cutoff, the recognition path only rejects past the end itself). -/
theorem early_departure_threshold_not_used :
    effectiveEnd dbFresh course8to10 3 - 60 * EARLY_DEPARTURE_THRESHOLD <
      (35400 : ℤ) ∧
    findAtt dbFresh 7 20 3 = none ∧
    (auto_mark_attendance dbFresh 7 20 3 35400).1 = true ∧
    (mark_attendance_for_recognized dbFresh 20 3 35400 [7]).1 =
      [(7, true, "Marked as Late")] := by
  decide

/-- C1 (amended): for a first check-in attempt (course found, no existing
record, student enrolled), auto_mark_attendance accepts exactly on
[start − EARLY_ARRIVAL_MARGIN, end − 10 min] — the 10 is hard-coded — and
rejects without touching the database otherwise, while the
recognition-driven path reports "class ended" exactly when now is past
the effective end time itself; neither path uses the configured
EARLY_DEPARTURE_THRESHOLD. -/
theorem first_checkin_window_cutoffs (db : DB) (s c today : ℕ) (now : ℤ)
    (course : Course)
    (hc : get_course_by_id db c = some course)
    (hno : findAtt db s c today = none)
    (hen : is_student_enrolled_in_course db s c = true) :
    ((auto_mark_attendance db s c today now).1 = true ↔
      course.start_time - 60 * EARLY_ARRIVAL_MARGIN ≤ now ∧
      now ≤ effectiveEnd db course today - 60 * 10) ∧
    ((auto_mark_attendance db s c today now).1 = false →
      auto_mark_attendance db s c today now = (false, db)) ∧
    (mark_attendance_for_recognized db c today now [s] =
        ([(s, false, "Class ended")], db) ↔
      course.start_time - 60 * EARLY_ARRIVAL_MARGIN ≤ now ∧
      effectiveEnd db course today < now) := by
  refine ⟨?_, ?_, ?_⟩
  · unfold auto_mark_attendance
    rw [hc, hno]
    simp only []
    split
    case isTrue h => exact iff_of_true rfl h
    case isFalse h => exact iff_of_false (by simp) h
  · unfold auto_mark_attendance
    rw [hc, hno]
    simp only []
    split
    case isTrue h => intro hfalse; simp at hfalse
    case isFalse h => intro _; rfl
  · rw [mark_recognized_singleton db c today now s course hc,
        vitStep_first_checkin db c today now _ _ _ _ _ s hen hno]
    split
    case isTrue h1 =>
      refine iff_of_false (fun heq => ?_)
        (fun hrhs => absurd hrhs.1 (not_le.2 h1))
      exact absurd
        (show ("Too early" : String) = "Class ended" from
          congrArg (fun p => (p.1.headD (0, false, "")).2.2) heq) (by decide)
    case isFalse h1 =>
      split
      case isTrue h2 => exact iff_of_true rfl ⟨not_lt.1 h1, h2⟩
      case isFalse h2 =>
        refine iff_of_false (fun heq => ?_) (fun hrhs => absurd hrhs.2 h2)
        exact absurd
          (show (true : Bool) = false from
            congrArg (fun p => (p.1.headD (0, false, "")).2.1) heq) (by decide)

/-- Witness for C1 (amended): 08:20 is accepted by the auto path; 10:01
is rejected as "Class ended" by the recognition path. -/
theorem first_checkin_window_cutoffs_witness :
    (auto_mark_attendance dbFresh 7 20 3 30000).1 = true ∧
    mark_attendance_for_recognized dbFresh 20 3 36060 [7] =
      ([(7, false, "Class ended")], dbFresh) :=
  ⟨(first_checkin_window_cutoffs dbFresh 7 20 3 30000 course8to10
      (by decide) (by decide) (by decide)).1.mpr (by decide),
   (first_checkin_window_cutoffs dbFresh 7 20 3 36060 course8to10
      (by decide) (by decide) (by decide)).2.2.mpr (by decide)⟩

/-- C3 counterexample: the manual mark_attendance path performs no window
check at all — with an existing record whose second_time is null, a call
at 08:40 (far outside the ±5-minute window around the 10:00 end) is
accepted and even overwrites the status, where the claim demands a
rejection that leaves the record unchanged. -/
theorem manual_second_checkin_bypasses_window :
    findAtt dbFirstOnly 7 20 3 = some rowFirstOnly ∧
    rowFirstOnly.second_time = none ∧
    rowFirstOnly.is_cancelled = false ∧
    ((31200 : ℤ) <
      effectiveEnd dbFirstOnly course8to10 3 - 60 * SECOND_CHECKIN_WINDOW) ∧
    mark_attendance dbFirstOnly 7 20 3 31200 Status.absent =
      (true, { dbFirstOnly with attendance :=
          [{ rowFirstOnly with
             second_time := some 31200,
             status := Status.absent }] }) := by
  decide

/-- C3 (amended): with an existing, non-cancelled record, the two
automatic paths accept a further check-in iff second_time is null and now
lies in [end − SECOND_CHECKIN_WINDOW, end + SECOND_CHECKIN_WINDOW],
acceptance setting only second_time (status untouched) and rejection
leaving the database unchanged; the manual mark_attendance path instead
accepts any call while second_time is null — regardless of the clock —
setting second_time and overwriting status, and rejects only when
second_time is already set. -/
theorem second_checkin_rules (db : DB) (s c today : ℕ) (now t : ℤ)
    (stNew : Status) (course : Course) (r : AttRecord)
    (hc : get_course_by_id db c = some course)
    (hfind : findAtt db s c today = some r)
    (hnc : r.is_cancelled = false) :
    ((auto_mark_attendance db s c today now).1 = true ↔
      r.second_time = none ∧
      effectiveEnd db course today - 60 * SECOND_CHECKIN_WINDOW ≤ now ∧
      now ≤ effectiveEnd db course today + 60 * SECOND_CHECKIN_WINDOW) ∧
    ((auto_mark_attendance db s c today now).1 = true →
      auto_mark_attendance db s c today now =
        (true, { db with attendance := db.attendance.map (fun r0 =>
            if attKey s c today r0 then { r0 with second_time := some now }
            else r0) })) ∧
    ((auto_mark_attendance db s c today now).1 = false →
      auto_mark_attendance db s c today now = (false, db)) ∧
    (is_student_enrolled_in_course db s c = true →
      mark_attendance_for_recognized db c today now [s] =
        if r.second_time = none ∧
            effectiveEnd db course today - 60 * SECOND_CHECKIN_WINDOW ≤ now ∧
            now ≤ effectiveEnd db course today + 60 * SECOND_CHECKIN_WINDOW
        then ([(s, true, "Second check-in recorded")],
              { db with attendance := db.attendance.map (fun r0 =>
                  if attKey s c today r0 then
                    { r0 with second_time := some now }
                  else r0) })
        else ([(s, false, "Already checked in")], db)) ∧
    (r.second_time = none →
      mark_attendance db s c today t stNew =
        (true, { db with attendance := db.attendance.map (fun r0 =>
            if attKey s c today r0 then
              { r0 with second_time := some t, status := stNew }
            else r0) })) ∧
    (r.second_time ≠ none →
      mark_attendance db s c today t stNew = (false, db)) := by
  refine ⟨?_, ?_, ?_, ?_, ?_, ?_⟩
  · unfold auto_mark_attendance
    rw [hc, hfind]
    simp only [hnc, if_false, Bool.false_eq_true]
    split
    case isTrue h => exact iff_of_true rfl h
    case isFalse h => exact iff_of_false (by simp) h
  · unfold auto_mark_attendance
    rw [hc, hfind]
    simp only [hnc, if_false, Bool.false_eq_true]
    split
    case isTrue h => intro _; rfl
    case isFalse h => intro hcon; simp at hcon
  · unfold auto_mark_attendance
    rw [hc, hfind]
    simp only [hnc, if_false, Bool.false_eq_true]
    split
    case isTrue h => intro hcon; simp at hcon
    case isFalse h => intro _; rfl
  · intro hen
    rw [mark_recognized_singleton db c today now s course hc,
        vitStep_second_checkin db c today now _ _ _ _ _ s r hen hfind hnc]
    split
    case isTrue h => rfl
    case isFalse h => rfl
  · intro hsecond
    unfold mark_attendance
    rw [hfind]
    simp [hnc, hsecond]
  · intro hsecond
    unfold mark_attendance
    rw [hfind]
    simp [hnc, hsecond]

/-- Witness for C3 (amended): at 09:58 (inside the window) the auto path
accepts the second check-in; the manual path accepts at 08:40. -/
theorem second_checkin_rules_witness :
    (auto_mark_attendance dbFirstOnly 7 20 3 35880).1 = true ∧
    mark_attendance dbFirstOnly 7 20 3 31200 Status.absent =
      (true, { dbFirstOnly with attendance :=
          dbFirstOnly.attendance.map (fun r0 =>
            if attKey 7 20 3 r0 then
              { r0 with second_time := some 31200, status := Status.absent }
            else r0) }) :=
  ⟨(second_checkin_rules dbFirstOnly 7 20 3 35880 31200 Status.absent
      course8to10 rowFirstOnly (by decide) (by decide) (by decide)).1.mpr
      (by decide),
   (second_checkin_rules dbFirstOnly 7 20 3 35880 31200 Status.absent
      course8to10 rowFirstOnly (by decide) (by decide) (by decide)).2.2.2.2.1
      (by decide)⟩

/-- A database whose (course, date) slice already holds a cancelled row is
left untouched by cancel_lecture, which reports success. -/
lemma cancel_lecture_of_any (db : DB) (c d : ℕ)
    (h : db.attendance.any (fun r =>
      r.course = c ∧ r.date = d ∧ r.is_cancelled) = true) :
    cancel_lecture db c d = (true, db) := by
  unfold cancel_lecture
  rw [if_pos h]

/-- C4 counterexample: students 7 and 9 are enrolled, but only student 7
has an attendance row for the date; cancel_lecture succeeds yet creates
no row for student 9, so the result is not one N/A row per enrolled
student. -/
theorem cancel_skips_rowless_students :
    get_enrolled_students dbTwoEnrolled 20 = [7, 9] ∧
    (cancel_lecture dbTwoEnrolled 20 3).1 = true ∧
    ((cancel_lecture dbTwoEnrolled 20 3).2.attendance.filter
        (fun r => r.student = 9 ∧ r.course = 20 ∧ r.date = 3)).length = 0 := by
  decide

/-- C4 (amended): cancel_lecture always reports success and is idempotent
(a second call is an exact no-op); when a cancelled row already exists it
changes nothing; when no row at all exists for (course, date) it appends
one N/A cancelled row per enrollment entry; when rows exist (and none is
cancelled yet) it rewrites exactly the (course, date) rows to N/A with
is_cancelled set, adds or removes nothing, and creates no rows for
enrolled students who lack one. -/
theorem cancel_lecture_rules (db : DB) (c d : ℕ) :
    (cancel_lecture db c d).1 = true ∧
    cancel_lecture (cancel_lecture db c d).2 c d =
      (true, (cancel_lecture db c d).2) ∧
    (db.attendance.any (fun r =>
        r.course = c ∧ r.date = d ∧ r.is_cancelled) = true →
      (cancel_lecture db c d).2 = db) ∧
    (db.attendance.filter (fun r => r.course = c ∧ r.date = d) = [] →
      (cancel_lecture db c d).2.attendance =
        db.attendance ++ (get_enrolled_students db c).map (fun s =>
          { student := s, course := c, date := d, time := none,
            second_time := none, status := Status.na,
            is_cancelled := true })) ∧
    (db.attendance.any (fun r =>
        r.course = c ∧ r.date = d ∧ r.is_cancelled) = false →
     db.attendance.filter (fun r => r.course = c ∧ r.date = d) ≠ [] →
      List.Forall₂ (fun r0 r1 =>
        ((r0.course = c ∧ r0.date = d) →
          r1 = { r0 with status := Status.na, is_cancelled := true }) ∧
        (¬(r0.course = c ∧ r0.date = d) → r1 = r0))
        db.attendance (cancel_lecture db c d).2.attendance) := by
  refine ⟨?_, ?_, ?_, ?_, ?_⟩
  · unfold cancel_lecture
    split
    · rfl
    · split <;> rfl
  · by_cases hA : db.attendance.any (fun r =>
        r.course = c ∧ r.date = d ∧ r.is_cancelled) = true
    · have e2 : (cancel_lecture db c d).2 = db := by
        rw [cancel_lecture_of_any db c d hA]
      rw [e2, cancel_lecture_of_any db c d hA]
    · by_cases hB : 0 < (db.attendance.filter (fun r =>
          r.course = c ∧ r.date = d)).length
      · have e2 : (cancel_lecture db c d).2 =
            { db with attendance := db.attendance.map (fun r =>
                if r.course = c ∧ r.date = d then
                  { r with status := Status.na, is_cancelled := true }
                else r) } := by
          unfold cancel_lecture
          rw [if_neg hA, if_pos hB]
        have hne : db.attendance.filter (fun r =>
            r.course = c ∧ r.date = d) ≠ [] := by
          intro h0
          rw [h0] at hB
          simp at hB
        obtain ⟨r, hrmem⟩ := List.exists_mem_of_ne_nil _ hne
        have hr := List.mem_filter.1 hrmem
        have hkey : r.course = c ∧ r.date = d := by
          have := hr.2
          simpa using this
        have hany : (cancel_lecture db c d).2.attendance.any (fun r0 =>
            r0.course = c ∧ r0.date = d ∧ r0.is_cancelled) = true := by
          rw [e2]
          refine List.any_eq_true.2 ⟨_, List.mem_map_of_mem _ hr.1, ?_⟩
          rw [if_pos hkey]
          simp [hkey.1, hkey.2]
        exact cancel_lecture_of_any _ c d hany
      · have e2 : (cancel_lecture db c d).2 =
            { db with attendance := db.attendance ++
                (get_enrolled_students db c).map (fun s =>
                  { student := s, course := c, date := d, time := none,
                    second_time := none, status := Status.na,
                    is_cancelled := true }) } := by
          unfold cancel_lecture
          rw [if_neg hA, if_neg hB]
        cases hE : get_enrolled_students db c with
        | nil =>
          have e2' : (cancel_lecture db c d).2 = db := by
            rw [e2, hE]
            simp
          rw [e2']
          unfold cancel_lecture
          rw [if_neg hA, if_neg hB, hE]
          simp
        | cons s0 rest =>
          have hmem : ({ student := s0, course := c, date := d,
                         time := none, second_time := none,
                         status := Status.na,
                         is_cancelled := true } : AttRecord) ∈
              (cancel_lecture db c d).2.attendance := by
            rw [e2, hE]
            simp
          have hany : (cancel_lecture db c d).2.attendance.any (fun r0 =>
              r0.course = c ∧ r0.date = d ∧ r0.is_cancelled) = true :=
            List.any_eq_true.2 ⟨_, hmem, by simp⟩
          exact cancel_lecture_of_any _ c d hany
  · intro hA
    rw [cancel_lecture_of_any db c d hA]
  · intro hfil
    have hA : ¬ db.attendance.any (fun r =>
        r.course = c ∧ r.date = d ∧ r.is_cancelled) = true := by
      intro hc
      obtain ⟨r, hrmem, hpr⟩ := List.any_eq_true.1 hc
      have hkey : r.course = c ∧ r.date = d := by
        have := of_decide_eq_true hpr
        exact ⟨this.1, this.2.1⟩
      have : r ∈ db.attendance.filter (fun r0 =>
          r0.course = c ∧ r0.date = d) :=
        List.mem_filter.2 ⟨hrmem, by simp [hkey.1, hkey.2]⟩
      rw [hfil] at this
      simp at this
    have hB : ¬ 0 < (db.attendance.filter (fun r =>
        r.course = c ∧ r.date = d)).length := by
      rw [hfil]
      simp
    unfold cancel_lecture
    rw [if_neg hA, if_neg hB]
  · intro hA hfil
    have hA' : ¬ db.attendance.any (fun r =>
        r.course = c ∧ r.date = d ∧ r.is_cancelled) = true := by
      rw [hA]
      exact Bool.false_ne_true
    have hB : 0 < (db.attendance.filter (fun r =>
        r.course = c ∧ r.date = d)).length :=
      List.length_pos.2 hfil
    have e2 : (cancel_lecture db c d).2 =
        { db with attendance := db.attendance.map (fun r =>
            if r.course = c ∧ r.date = d then
              { r with status := Status.na, is_cancelled := true }
            else r) } := by
      unfold cancel_lecture
      rw [if_neg hA', if_pos hB]
    rw [e2]
    simp only []
    rw [List.forall₂_map_right_iff]
    refine List.forall₂_same.2 (fun r _ => ?_)
    constructor
    · intro hk
      rw [if_pos hk]
    · intro hk
      rw [if_neg hk]

/-- Witness for C4 (amended): on a database with no attendance rows,
cancelling creates one N/A row for the single enrolled student, and a
second cancellation is a no-op success. -/
theorem cancel_lecture_rules_witness :
    (cancel_lecture dbFresh 20 3).2.attendance =
      dbFresh.attendance ++ (get_enrolled_students dbFresh 20).map (fun s =>
        { student := s, course := 20, date := 3, time := none,
          second_time := none, status := Status.na,
          is_cancelled := true }) ∧
    cancel_lecture (cancel_lecture dbFresh 20 3).2 20 3 =
      (true, (cancel_lecture dbFresh 20 3).2) :=
  ⟨(cancel_lecture_rules dbFresh 20 3).2.2.2.1 (by decide),
   (cancel_lecture_rules dbFresh 20 3).2.1⟩

/-- argmin indexes into a nonempty list. -/
lemma argmin_lt_length : ∀ ds : List ℚ, ds ≠ [] → argmin ds < ds.length := by
  intro ds
  induction ds with
  | nil => intro h; exact absurd rfl h
  | cons d ds ih =>
    intro _
    simp only [argmin]
    by_cases h : ds.length = 0
    · rw [if_pos h]
      simp
    · rw [if_neg h]
      by_cases h2 : d ≤ ds.getD (argmin ds) 0
      · rw [if_pos h2]
        simp
      · rw [if_neg h2]
        have hne : ds ≠ [] := by
          intro hc
          rw [hc] at h
          exact h rfl
        simpa [List.length_cons] using Nat.succ_lt_succ (ih hne)

/-- The element at argmin is a minimum of the list. -/
lemma argmin_is_min : ∀ (ds : List ℚ) (j : ℕ), j < ds.length →
    ds.getD (argmin ds) 0 ≤ ds.getD j 0 := by
  intro ds
  induction ds with
  | nil => intro j h; simp at h
  | cons d ds ih =>
    intro j hj
    simp only [argmin]
    by_cases h : ds.length = 0
    · rw [if_pos h]
      have hds : ds = [] := List.length_eq_zero.1 h
      subst hds
      have hj0 : j = 0 := by
        simp at hj
        omega
      subst hj0
      simp
    · rw [if_neg h]
      by_cases h2 : d ≤ ds.getD (argmin ds) 0
      · rw [if_pos h2]
        cases j with
        | zero => simp
        | succ k =>
          simp only [List.getD_cons_zero, List.getD_cons_succ]
          exact le_trans h2 (ih k (by simpa using hj))
      · rw [if_neg h2]
        cases j with
        | zero =>
          simp only [List.getD_cons_succ, List.getD_cons_zero]
          exact le_of_lt (not_le.1 h2)
        | succ k =>
          simp only [List.getD_cons_succ]
          exact ih k (by simpa using hj)

/-- Every index before argmin holds a strictly larger value: argmin is the
first occurrence of the minimum. -/
lemma argmin_first_occ : ∀ (ds : List ℚ) (j : ℕ), j < argmin ds →
    ds.getD (argmin ds) 0 < ds.getD j 0 := by
  intro ds
  induction ds with
  | nil => intro j h; simp [argmin] at h
  | cons d ds ih =>
    intro j hj
    simp only [argmin] at hj ⊢
    by_cases h : ds.length = 0
    · rw [if_pos h] at hj
      exact absurd hj (by omega)
    · rw [if_neg h] at hj ⊢
      by_cases h2 : d ≤ ds.getD (argmin ds) 0
      · rw [if_pos h2] at hj
        exact absurd hj (by omega)
      · rw [if_neg h2] at hj ⊢
        cases j with
        | zero =>
          simp only [List.getD_cons_succ, List.getD_cons_zero]
          exact not_le.1 h2
        | succ k =>
          simp only [List.getD_cons_succ]
          exact ih k (by omega)

/-- getD of the distance list is the distance of the matching gallery
entry. -/
lemma distancesTo_getD (q : List ℚ) (gallery : List (List ℚ)) (j : ℕ)
    (hj : j < gallery.length) :
    (distancesTo q gallery).getD j 0 = 1 - dot q (gallery.getD j []) := by
  unfold distancesTo
  rw [List.getD_eq_getElem _ _ (by simpa using hj),
      List.getD_eq_getElem _ _ hj]
  simp

/-- C7: for a nonempty gallery, identity matching computes
distance = 1 − cosine per gallery entry, selects the index minimizing the
distance with ties broken by the first occurrence in gallery order, and
accepts exactly when that minimum distance is ≤ the tolerance, reporting
the matching student id; above the tolerance the face is unknown. -/
theorem matchFace_rules (q : List ℚ) (gallery : List (List ℚ))
    (ids : List ℕ) (tol : ℚ) (hg : gallery ≠ []) :
    (∀ j, j < gallery.length →
      (distancesTo q gallery).getD j 0 = 1 - dot q (gallery.getD j [])) ∧
    (argmin (distancesTo q gallery) < gallery.length) ∧
    (∀ j, j < gallery.length →
      (distancesTo q gallery).getD (argmin (distancesTo q gallery)) 0 ≤
        (distancesTo q gallery).getD j 0) ∧
    (∀ j, j < argmin (distancesTo q gallery) →
      (distancesTo q gallery).getD (argmin (distancesTo q gallery)) 0 <
        (distancesTo q gallery).getD j 0) ∧
    ((distancesTo q gallery).getD (argmin (distancesTo q gallery)) 0 ≤ tol →
      matchFace q gallery ids tol =
        FaceOutcome.recognized
          (ids.getD (argmin (distancesTo q gallery)) 0)
          ((distancesTo q gallery).getD (argmin (distancesTo q gallery)) 0)) ∧
    (tol < (distancesTo q gallery).getD (argmin (distancesTo q gallery)) 0 →
      matchFace q gallery ids tol = FaceOutcome.unknown) := by
  have hlen : (distancesTo q gallery).length = gallery.length := by
    simp [distancesTo]
  have hdne : distancesTo q gallery ≠ [] := by
    intro hc
    rw [hc] at hlen
    exact hg (List.length_eq_zero.1 hlen.symm)
  have hlen0 : ¬ (distancesTo q gallery).length = 0 := by
    intro hc
    exact hdne (List.length_eq_zero.1 hc)
  refine ⟨fun j hj => distancesTo_getD q gallery j hj, ?_, ?_, ?_, ?_, ?_⟩
  · rw [← hlen]
    exact argmin_lt_length _ hdne
  · intro j hj
    exact argmin_is_min _ j (by rwa [hlen])
  · intro j hj
    exact argmin_first_occ _ j hj
  · intro hle
    unfold matchFace
    rw [if_neg hlen0]
    simp only []
    rw [if_pos hle]
  · intro hgt
    unfold matchFace
    rw [if_neg hlen0]
    simp only []
    rw [if_neg (not_le.2 hgt)]

/-- Witness for C7: a two-entry gallery where the query exactly matches
the second entry (distance 0, within tolerance); the match reports the
second student id. -/
theorem matchFace_rules_witness :
    matchFace [1] [[0], [1]] [4, 9] FACE_RECOGNITION_TOLERANCE =
      FaceOutcome.recognized 9 0 := by
  have hds : distancesTo [1] [[0], [1]] = [1, 0] := by
    norm_num [distancesTo, dot]
  have harg : argmin [(1 : ℚ), 0] = 1 := by
    norm_num [argmin]
  have h := (matchFace_rules [1] [[0], [1]] [4, 9] FACE_RECOGNITION_TOLERANCE
    (by simp)).2.2.2.2.1
  rw [hds, harg] at h
  have h2 := h (by norm_num [List.getD, FACE_RECOGNITION_TOLERANCE])
  simpa using h2

/-- C8 counterexample: with no enrolled embeddings loaded, a frame with
one detected face yields empty recognized and empty unrecognized lists —
the detected face does not appear in the output as unknown. -/
theorem empty_gallery_face_dropped :
    frameOneFace.faces.length = 1 ∧
    recognize_faces resetLiveness [] [] frameOneFace
      FACE_RECOGNITION_TOLERANCE = (⟨[], []⟩, resetLiveness) :=
  ⟨rfl, rfl⟩

/-- C8 (amended): recognize_faces with an empty gallery returns the empty
result dictionary at once, whatever the frame contains — detected faces
are neither matched nor reported as unknown. -/
theorem recognize_faces_empty_gallery (st : LivenessState) (ids : List ℕ)
    (frame : Frame) (tol : ℚ) :
    recognize_faces st [] ids frame tol = (⟨[], []⟩, st) := rfl

/-- detect_blink can only raise blink_count and never touches
head_movement_count. -/
lemma detect_blink_state (st : LivenessState) (ear : ℚ) :
    st.blink_count ≤ (detect_blink st ear).2.blink_count ∧
    (detect_blink st ear).2.head_movement_count = st.head_movement_count := by
  unfold detect_blink
  dsimp only
  split
  · simp
  · split
    · simp
    · simp

/-- detect_head_movement can only raise head_movement_count and never
touches blink_count. -/
lemma detect_move_state (st : LivenessState) (pos : ℚ) :
    st.head_movement_count ≤
      (detect_head_movement st pos).2.head_movement_count ∧
    (detect_head_movement st pos).2.blink_count = st.blink_count := by
  unfold detect_head_movement
  cases h : st.last_face_position with
  | none => simp
  | some last =>
    dsimp only
    split
    · simp
    · split
      · simp
      · simp

/-- check_liveness never decreases either counter. -/
lemma check_liveness_counts (st : LivenessState) (m sd : ℚ)
    (lm fp : Option ℚ) :
    st.blink_count ≤ (check_liveness st m sd lm fp).2.blink_count ∧
    st.head_movement_count ≤
      (check_liveness st m sd lm fp).2.head_movement_count := by
  unfold check_liveness
  dsimp only
  cases lm with
  | none =>
    cases fp with
    | none => exact ⟨le_refl _, le_refl _⟩
    | some p =>
      have h := detect_move_state st p
      exact ⟨le_of_eq h.2.symm, h.1⟩
  | some ear =>
    cases fp with
    | none =>
      have h := detect_blink_state st ear
      exact ⟨h.1, le_of_eq h.2.symm⟩
    | some p =>
      have h1 := detect_blink_state st ear
      have h2 := detect_move_state (detect_blink st ear).2 p
      exact ⟨le_trans h1.1 (le_of_eq h2.2.symm),
             le_trans (le_of_eq h1.2.symm) h2.1⟩

/-- Once the session-wide count condition holds, the outcome of
check_liveness is exactly the texture check. -/
lemma check_liveness_warm (st : LivenessState) (m sd : ℚ) (lm fp : Option ℚ)
    (hcond : required_blinks ≤ st.blink_count ∨
             required_movements ≤ st.head_movement_count) :
    (check_liveness st m sd lm fp).1 = analyze_texture m sd := by
  have hc := check_liveness_counts st m sd lm fp
  have h2 : required_blinks ≤ (check_liveness st m sd lm fp).2.blink_count ∨
      required_movements ≤
        (check_liveness st m sd lm fp).2.head_movement_count :=
    hcond.imp (fun h => le_trans h hc.1) (fun h => le_trans h hc.2)
  have hres : (check_liveness st m sd lm fp).1 =
      (decide (required_blinks ≤
          (check_liveness st m sd lm fp).2.blink_count ∨
        required_movements ≤
          (check_liveness st m sd lm fp).2.head_movement_count) &&
       analyze_texture m sd) := rfl
  rw [hres, decide_eq_true h2, Bool.true_and]

/-- Unfolding of the face loop on a cons cell. -/
lemma recogLoop_cons (gallery : List (List ℚ)) (ids : List ℕ) (tol : ℚ)
    (meanMag stdMag : ℚ) (st : LivenessState) (f : Face) (fs : List Face) :
    recogLoop gallery ids tol meanMag stdMag st (f :: fs) =
      (match (recog_step gallery ids tol meanMag stdMag st f).1 with
       | Sum.inl rec0 =>
         ({ (recogLoop gallery ids tol meanMag stdMag
              (recog_step gallery ids tol meanMag stdMag st f).2 fs).1 with
            recognized := rec0 ::
              (recogLoop gallery ids tol meanMag stdMag
                (recog_step gallery ids tol meanMag stdMag st f).2
                fs).1.recognized },
          (recogLoop gallery ids tol meanMag stdMag
            (recog_step gallery ids tol meanMag stdMag st f).2 fs).2)
       | Sum.inr unrec =>
         ({ (recogLoop gallery ids tol meanMag stdMag
              (recog_step gallery ids tol meanMag stdMag st f).2 fs).1 with
            unrecognized := unrec ::
              (recogLoop gallery ids tol meanMag stdMag
                (recog_step gallery ids tol meanMag stdMag st f).2
                fs).1.unrecognized },
          (recogLoop gallery ids tol meanMag stdMag
            (recog_step gallery ids tol meanMag stdMag st f).2 fs).2)) :=
  rfl

/-- C9: a face is accepted by check_liveness iff (blink count ≥
required_blinks or movement count ≥ required_movements, as evaluated on
the updated detector state) and the texture analysis passes; and in
recognize_faces a face that fails the check is reported as unrecognized
with reason "Liveness check failed" and contributes nothing to the
recognized list — the remaining faces alone determine it. -/
theorem liveness_gate_rules (st : LivenessState) (m sd : ℚ)
    (lm fp : Option ℚ) (gallery : List (List ℚ)) (ids : List ℕ) (tol : ℚ)
    (frame : Frame) (f : Face) (fs : List Face)
    (hg : gallery ≠ []) (hfaces : frame.faces = f :: fs) :
    ((check_liveness st m sd lm fp).1 = true ↔
      ((required_blinks ≤ (check_liveness st m sd lm fp).2.blink_count ∨
        required_movements ≤
          (check_liveness st m sd lm fp).2.head_movement_count) ∧
       analyze_texture m sd = true)) ∧
    ((check_liveness st frame.texMean frame.texStd none (some f.pos)).1 =
        false →
      recognize_faces st gallery ids frame tol =
        ({ (recogLoop gallery ids tol frame.texMean frame.texStd
              (check_liveness st frame.texMean frame.texStd none
                (some f.pos)).2 fs).1 with
           unrecognized := (f.loc, "Liveness check failed") ::
             (recogLoop gallery ids tol frame.texMean frame.texStd
               (check_liveness st frame.texMean frame.texStd none
                 (some f.pos)).2 fs).1.unrecognized },
         (recogLoop gallery ids tol frame.texMean frame.texStd
           (check_liveness st frame.texMean frame.texStd none
             (some f.pos)).2 fs).2)) := by
  constructor
  · have hres : (check_liveness st m sd lm fp).1 =
        (decide (required_blinks ≤
            (check_liveness st m sd lm fp).2.blink_count ∨
          required_movements ≤
            (check_liveness st m sd lm fp).2.head_movement_count) &&
         analyze_texture m sd) := rfl
    rw [hres]
    simp [Bool.and_eq_true, decide_eq_true_eq]
  · intro hfail
    have hstep : recog_step gallery ids tol frame.texMean frame.texStd st f =
        (Sum.inr (f.loc, "Liveness check failed"),
         (check_liveness st frame.texMean frame.texStd none
           (some f.pos)).2) := by
      unfold recog_step
      rw [if_pos hfail]
    unfold recognize_faces
    rw [hfaces]
    rw [if_neg (fun hc => hg (List.length_eq_zero.1 hc))]
    rw [if_neg (by simp : ¬ (f :: fs).length = 0)]
    rw [recogLoop_cons, hstep]

/-- Witness for C9: from the reset state (no blinks, no movement yet) the
single face of the frame fails liveness and is reported with the failure
reason, excluded from matching. -/
theorem liveness_gate_rules_witness :
    recognize_faces resetLiveness [[1]] [4] frameOneFace
      FACE_RECOGNITION_TOLERANCE =
      (⟨[], [(11, "Liveness check failed")]⟩,
       { resetLiveness with last_face_position := some 5 }) := by
  have h := (liveness_gate_rules resetLiveness 1 1 none none [[1]] [4]
    FACE_RECOGNITION_TOLERANCE frameOneFace faceA [] (by simp) rfl).2 rfl
  rw [h]
  rfl

/-- C10: the liveness counters never decrease across check_liveness calls
(reset returns them to zero); they live on the detector, shared by every
face of the session, so once the count condition holds for the state it
holds for every later call, whose outcome then equals the texture check
alone — in particular no face evaluated from such a state is ever
reported as a liveness failure. -/
theorem liveness_counters_monotone (st : LivenessState) (m sd : ℚ)
    (lm fp : Option ℚ) (gallery : List (List ℚ)) (ids : List ℕ) (tol : ℚ)
    (fs : List Face) :
    resetLiveness.blink_count = 0 ∧
    resetLiveness.head_movement_count = 0 ∧
    (st.blink_count ≤ (check_liveness st m sd lm fp).2.blink_count ∧
     st.head_movement_count ≤
       (check_liveness st m sd lm fp).2.head_movement_count) ∧
    (required_blinks ≤ st.blink_count ∨
       required_movements ≤ st.head_movement_count →
      (check_liveness st m sd lm fp).1 = analyze_texture m sd) ∧
    (required_blinks ≤ st.blink_count ∨
       required_movements ≤ st.head_movement_count →
     analyze_texture m sd = true →
      ∀ p ∈ (recogLoop gallery ids tol m sd st fs).1.unrecognized,
        p.2 ≠ "Liveness check failed") := by
  refine ⟨rfl, rfl, check_liveness_counts st m sd lm fp,
    check_liveness_warm st m sd lm fp, ?_⟩
  intro hcond htex
  induction fs generalizing st with
  | nil =>
    intro p hp
    simp [recogLoop] at hp
  | cons f fs ih =>
    intro p hp
    have hres : (check_liveness st m sd none (some f.pos)).1 = true := by
      rw [check_liveness_warm st m sd none (some f.pos) hcond, htex]
    have hcond' : required_blinks ≤
        (check_liveness st m sd none (some f.pos)).2.blink_count ∨
        required_movements ≤
          (check_liveness st m sd none (some f.pos)).2.head_movement_count :=
      hcond.imp
        (fun h => le_trans h (check_liveness_counts st m sd none
          (some f.pos)).1)
        (fun h => le_trans h (check_liveness_counts st m sd none
          (some f.pos)).2)
    have hne : ¬ (check_liveness st m sd none (some f.pos)).1 = false := by
      simp [hres]
    cases hm : matchFace f.embedding gallery ids tol with
    | recognized sid dist =>
      have hstep : recog_step gallery ids tol m sd st f =
          (Sum.inl (f.loc, sid, dist),
           (check_liveness st m sd none (some f.pos)).2) := by
        unfold recog_step
        dsimp only
        rw [if_neg hne, hm]
      rw [recogLoop_cons, hstep] at hp
      dsimp only at hp
      exact ih _ hcond' p hp
    | unknown =>
      have hstep : recog_step gallery ids tol m sd st f =
          (Sum.inr (f.loc, "Unknown"),
           (check_liveness st m sd none (some f.pos)).2) := by
        unfold recog_step
        dsimp only
        rw [if_neg hne, hm]
      rw [recogLoop_cons, hstep] at hp
      dsimp only at hp
      rcases List.mem_cons.1 hp with h | h
      · subst h
        exact (by decide : ¬ ("Unknown" : String) = "Liveness check failed")
      · exact ih _ hcond' p h

/-- Witness for C10: from a state that already counted one blink, the
check outcome is the texture check, and a face loop run from it reports
no liveness failure. -/
theorem liveness_counters_monotone_witness :
    (check_liveness stWarm 1 1 none (some 5)).1 = analyze_texture 1 1 ∧
    ∀ p ∈ (recogLoop [[1]] [4] FACE_RECOGNITION_TOLERANCE 1 1 stWarm
        [faceA]).1.unrecognized, p.2 ≠ "Liveness check failed" :=
  ⟨(liveness_counters_monotone stWarm 1 1 none (some 5) [[1]] [4]
      FACE_RECOGNITION_TOLERANCE [faceA]).2.2.2.1 (Or.inl (by decide)),
   (liveness_counters_monotone stWarm 1 1 none (some 5) [[1]] [4]
      FACE_RECOGNITION_TOLERANCE [faceA]).2.2.2.2 (Or.inl (by decide))
      (by norm_num [analyze_texture, texture_threshold])⟩

end Faris
